import Mathlib

/-!
Verification of the OOSocket UDP endpoint (`oo_socket::udp::socket`,
src/unnamed/part_000, with the error taxonomy of src/include/errors.hpp)
against its natural-language specification.

The embedding follows the POSIX build of the source.  Platform calls
(`socket`, `bind`, `setsockopt`, `recv`, `sendto`, `errno`) are modelled as
oracle arguments supplied by the environment; everything the class itself
computes is embedded directly from the source text.
-/

namespace OOSocket

/-! ## Platform constants (POSIX / Linux values) -/

/-- Address family `AF_INET`. -/
def AF_INET : Nat := 2

/-- Wildcard local address `INADDR_ANY` (value 0, in network order). -/
def INADDR_ANY : Nat := 0

/-- `errno` value `EAGAIN` (Linux value 11). -/
def EAGAIN : Nat := 11

/-- `errno` value `EWOULDBLOCK`; on Linux it equals `EAGAIN`.  The source
checks both (part_000 line 165). -/
def EWOULDBLOCK : Nat := 11

/-- Host-to-network byte order conversion of a 16-bit port (`htons`).
Ports cross the C++ call boundary as `unsigned short`, hence the `% 65536`. -/
def htons (p : Nat) : Nat :=
  ((p % 65536) % 256) * 256 + (p % 65536) / 256

/-! ## `inet_pton` for `AF_INET`

The classic dotted-quad parser used by POSIX C libraries: up to four decimal
octets separated by single dots, each at most 255, no other characters;
returns the 32-bit address with the octets laid out in network byte order.
-/

/-- One step of the `inet_pton4` scanning loop.  `cur` is the octet being
accumulated, `prev` the completed octets, `octets` the number of octets
started so far, `saw` whether the current octet has at least one digit. -/
def inet_pton4_go : List Char → Nat → List Nat → Nat → Bool → Option (List Nat)
  | [], cur, prev, octets, _ =>
      if octets < 4 then none else some (prev ++ [cur])
  | ch :: rest, cur, prev, octets, saw =>
      if ch.isDigit then
        let n := cur * 10 + (ch.toNat - 48)
        if n > 255 then none
        else if saw then inet_pton4_go rest n prev octets saw
        else if octets + 1 > 4 then none
        else inet_pton4_go rest n prev (octets + 1) true
      else if ch = '.' ∧ saw then
        if octets = 4 then none
        else inet_pton4_go rest 0 (prev ++ [cur]) octets false
      else none

/-- `inet_pton(AF_INET, src, dst)`: `some addr` models return value 1 with
`addr` written to the destination, `none` models return value 0 (parse
failure, destination untouched). -/
def inet_pton (src : String) : Option Nat :=
  match inet_pton4_go src.data 0 [] 0 false with
  | some [a, b, c, d] => some (((a * 256 + b) * 256 + c) * 256 + d)
  | _ => none

/-! ## Data model -/

/-- The fields of `struct sockaddr_in` that the source reads or writes. -/
structure sockaddr_in where
  sin_family : Nat
  sin_port : Nat
  sin_addr : Nat
deriving DecidableEq, Repr

/-- The error kinds of src/include/errors.hpp, `enum codes` (lines 12-18):
exactly four, fixed. -/
inductive codes where
  | INITIALIZATION_ERROR
  | CONFIGURATION_ERROR
  | RECEIVE_ERROR
  | SEND_ERROR
deriving DecidableEq, Repr

/-- A thrown `oo_socket::errors::socket_error`: its `code()` and the
`message` returned by `what()`. -/
structure socket_error where
  code : codes
  message : String
deriving DecidableEq, Repr

/-- `errors::initialization_error` constructor (errors.hpp lines 31-38). -/
def initialization_error (additional_message : String) : socket_error :=
  ⟨codes.INITIALIZATION_ERROR, "Could not initialize socket:\n" ++ additional_message⟩

/-- `errors::configuration_error` constructor (errors.hpp lines 40-47). -/
def configuration_error (additional_message : String) : socket_error :=
  ⟨codes.CONFIGURATION_ERROR, "Could not configure socket:\n" ++ additional_message⟩

/-- `errors::receive_error` constructor (errors.hpp lines 49-56). -/
def receive_error (additional_message : String) : socket_error :=
  ⟨codes.RECEIVE_ERROR, "Error occurred while receiving from socket:\n" ++ additional_message⟩

/-- `errors::send_error` constructor (errors.hpp lines 58-65). -/
def send_error (additional_message : String) : socket_error :=
  ⟨codes.SEND_ERROR, "Error occurred while sending from socket:\n" ++ additional_message⟩

/-- The data members of `oo_socket::udp::socket` (part_000 lines 428-439).
The mutexes carry no data and are modelled separately as acquisition sets. -/
structure SocketState where
  socket_file_descriptor : Nat
  local_port : Nat
  local_address : sockaddr_in
  remote_address : sockaddr_in
  remote_address_set : Bool
deriving DecidableEq, Repr

/-! ## Timeout configuration -/

/-- POSIX `timeval` computed by `set_socket_receive_timeout`
(part_000 lines 412-417).  The source computes `tv_sec` and `tv_usec`
through `double` arithmetic; on the `unsigned int` domain every
intermediate is either an exact integer below 2^53 or differs from the
nearest integer by at least 1/1000, which is far above one ulp there, so
the rounding and the `(int)` truncations coincide with exact integer
arithmetic and the embedding uses the latter. -/
def receive_timeout_timeval (timeout_ms : Nat) : Nat × Nat :=
  let tv_sec := timeout_ms / 1000
  let tv_usec := (timeout_ms - tv_sec * 1000) * 1000
  (tv_sec, tv_usec)

/-- `set_socket_receive_timeout` (part_000 lines 404-422, POSIX branch).
`setsockopt_rcvtimeo` is the oracle for the `setsockopt` call on the
computed `timeval`; `last_error` is the oracle for
`get_last_network_error()`.  Returns the thrown error or unit, paired with
the (unmodified) object state. -/
def set_socket_receive_timeout (st : SocketState) (timeout_ms : Nat)
    (setsockopt_rcvtimeo : Nat × Nat → Int) (last_error : Nat) :
    Except socket_error Unit × SocketState :=
  let timeout_struct := receive_timeout_timeval timeout_ms
  if setsockopt_rcvtimeo timeout_struct ≠ 0 then
    (Except.error (configuration_error
      ("An error occurred while setting the receive timeout: " ++ Nat.repr last_error)), st)
  else
    (Except.ok (), st)

/-! ## Receive -/

/-- Outcome of one underlying `recv` call (part_000 lines 157 and 199).
`ok bytes` models a return of `bytes.length ≥ 0` with `bytes` written to
the buffer; `fail error_code` models a return of -1 with
`get_last_network_error()` reading `error_code`. -/
inductive RecvResult where
  | ok (bytes : List Nat)
  | fail (error_code : Nat)
deriving DecidableEq, Repr

/-- Vector-returning `receive` (part_000 lines 147-184, POSIX branch,
instantiated at the default `T = char`, so the element count equals the
received byte count).  `recv` is the transport oracle, applied to the
descriptor, the buffer size and the flags.  Returns the thrown error or
the received bytes, paired with the (unmodified) object state. -/
def receive_vec (st : SocketState) (buffer_size : Nat) (flags : Int)
    (recv : Nat → Nat → Int → RecvResult) :
    Except socket_error (List Nat) × SocketState :=
  match recv st.socket_file_descriptor buffer_size flags with
  | .ok bytes => (Except.ok bytes, st)
  | .fail error_code =>
      if error_code = EAGAIN ∨ error_code = EWOULDBLOCK then
        (Except.ok [], st)
      else
        (Except.error (receive_error (Nat.repr error_code)), st)

/-- Buffer-writing `receive` (part_000 lines 194-220, POSIX branch):
returns the received byte count, 0 on timeout. -/
def receive_buf (st : SocketState) (buffer_size : Nat) (flags : Int)
    (recv : Nat → Nat → Int → RecvResult) :
    Except socket_error Nat × SocketState :=
  match recv st.socket_file_descriptor buffer_size flags with
  | .ok bytes => (Except.ok bytes.length, st)
  | .fail error_code =>
      if error_code = EAGAIN ∨ error_code = EWOULDBLOCK then
        (Except.ok 0, st)
      else
        (Except.error (receive_error (Nat.repr error_code)), st)

/-! ## Send -/

/-- The arguments one `sendto` transport call receives. -/
structure sendto_call where
  fd : Nat
  payload : List Nat
  flags : Int
  dest : sockaddr_in
deriving DecidableEq, Repr

/-- Destination construction and validation of `send_to`
(part_000 lines 236-242): the `sendto` call it issues, or the error thrown
before any transmission is attempted.  The destination is a function-local
temporary in the source, so its piecewise population is not observable. -/
def send_to_request (st : SocketState) (buffer : List Nat) (port : Nat)
    (address : String) (flags : Int) : Except socket_error sendto_call :=
  match inet_pton address with
  | none => Except.error (send_error "Provided address was invalid.")
  | some sin_addr =>
      Except.ok ⟨st.socket_file_descriptor, buffer, flags, ⟨AF_INET, htons port, sin_addr⟩⟩

/-- Configuration check of `send` (part_000 lines 272-287): the `sendto`
call it issues using the stored remote configuration, or the error thrown
when no remote host has been configured (in which case no transmission is
attempted). -/
def send_request (st : SocketState) (buffer : List Nat) (flags : Int) :
    Except socket_error sendto_call :=
  if st.remote_address_set then
    Except.ok ⟨st.socket_file_descriptor, buffer, flags, st.remote_address⟩
  else
    Except.error (send_error "Remote host address and port has not been set.")

/-- Shared completion of both send forms (part_000 lines 245-255 and
274-284): `sendto_result` is what the transport returned for the issued
call, `last_error` the oracle for `get_last_network_error()`. -/
def send_result (sendto_result : Int) (last_error : Nat) : Except socket_error Int :=
  if sendto_result = -1 then
    Except.error (send_error (Nat.repr last_error))
  else
    Except.ok sendto_result

/-- `send_to` (part_000 lines 231-257 for the vector form at `T = char` and
302-327 for the pointer form; both hand the same byte payload to the
transport, so they share one byte-level embedding).  `sendto` is the
transport oracle. -/
def send_to (st : SocketState) (buffer : List Nat) (port : Nat) (address : String)
    (flags : Int) (sendto : sendto_call → Int) (last_error : Nat) :
    Except socket_error Int × SocketState :=
  match send_to_request st buffer port address flags with
  | .error e => (Except.error e, st)
  | .ok call => (send_result (sendto call) last_error, st)

/-- `send` (part_000 lines 266-290 for the vector form at `T = char` and
lines 336-359 for the pointer form). -/
def send (st : SocketState) (buffer : List Nat) (flags : Int)
    (sendto : sendto_call → Int) (last_error : Nat) :
    Except socket_error Int × SocketState :=
  match send_request st buffer flags with
  | .error e => (Except.error e, st)
  | .ok call => (send_result (sendto call) last_error, st)

/-! ## Remote configuration and descriptor access -/

/-- `configure_remote_host` (part_000 lines 380-396).  The source assigns
`remote_address.sin_family` (line 385) and `remote_address.sin_port`
(line 388) before the `inet_pton` check (line 391), so when the parse
fails and the exception propagates those two writes remain in the object
while `sin_addr` and `remote_address_set` are untouched; on success
`inet_pton` writes `sin_addr` and the flag is set (line 395). -/
def configure_remote_host (st : SocketState) (port : Nat) (address : String) :
    Except socket_error Unit × SocketState :=
  let remote_address :=
    { st.remote_address with sin_family := AF_INET, sin_port := htons port }
  match inet_pton address with
  | none =>
      (Except.error (configuration_error "Provided address was invalid."),
       { st with remote_address := remote_address })
  | some sin_addr =>
      (Except.ok (),
       { st with remote_address := { remote_address with sin_addr := sin_addr },
                 remote_address_set := true })

/-- `get_socket_file_descriptor` (part_000 lines 369-371). -/
def get_socket_file_descriptor (st : SocketState) : Nat × SocketState :=
  (st.socket_file_descriptor, st)

/-! ## Construction -/

/-- Environment oracle for the platform calls the constructor makes. -/
structure ConstructEnv where
  /-- Return value of `socket(AF_INET, SOCK_DGRAM, 0)` (part_000 line 85). -/
  socket_result : Int
  /-- Value `get_last_network_error()` reads at a failure point. -/
  last_error : Nat
  /-- Return value of `setsockopt(..., SO_RCVTIMEO, ...)` on a given timeval. -/
  setsockopt_rcvtimeo : Nat × Nat → Int
  /-- Return value of `bind` (part_000 line 115). -/
  bind_result : Int

/-- Local-address resolution in the constructor (part_000 lines 70-79):
an empty string selects `INADDR_ANY`, anything else must `inet_pton`. -/
def parse_local_address (address : String) : Option Nat :=
  if address = "" then some INADDR_ANY else inet_pton address

/-- The constructor (part_000 lines 56-119, POSIX branch).  Notes kept from
the source: `socket_file_descriptor` is declared `unsigned long long`
(line 429), so the `< 0` test of line 89 is performed on an unsigned value
and never fires — the embedding keeps the dead comparison on a `Nat`; the
results of the `SO_REUSEADDR`/`SO_BROADCAST` `setsockopt` calls
(lines 102-103) are ignored by the source; `set_socket_receive_timeout(0)`
(line 105) can throw `configuration_error` out of the constructor; the
`remote_address` member is left uninitialized by the source and is
modelled as zeroed. -/
def construct (port : Nat) (address : String) (env : ConstructEnv) :
    Except socket_error SocketState :=
  let remote_address_set := false
  match parse_local_address address with
  | none => Except.error (initialization_error "Provided address was invalid.")
  | some sin_addr =>
    let local_address : sockaddr_in := ⟨AF_INET, htons port, sin_addr⟩
    let socket_file_descriptor : Nat := (env.socket_result % (2 ^ 64 : Int)).toNat
    if socket_file_descriptor < 0 then
      Except.error (initialization_error
        ("Could not create socket, failed with error: " ++ Nat.repr env.last_error))
    else
      let st : SocketState :=
        ⟨socket_file_descriptor, port % 65536, local_address, ⟨0, 0, 0⟩, remote_address_set⟩
      match (set_socket_receive_timeout st 0 env.setsockopt_rcvtimeo env.last_error).1 with
      | .error e => Except.error e
      | .ok () =>
        if env.bind_result ≠ 0 then
          Except.error (initialization_error
            ("Could not bind socket to local address, failed with error: " ++ Nat.repr env.last_error))
        else
          Except.ok st

/-! ## Lock acquisition model

The three mutexes (part_000 lines 441-448) carry no data; which of them
each operation acquires is a syntactic fact of the source, modelled as the
ordered list of events each operation performs. -/

/-- The three mutex members of the class (part_000 lines 441-448). -/
inductive mutex_id where
  | member_mutex
  | send_mutex
  | receive_mutex
deriving DecidableEq, Repr

/-- Events of the destructor body (part_000 lines 124-135), in source
order. -/
inductive dtor_event where
  | lock (m : mutex_id)
  | close_socket
deriving DecidableEq, Repr

/-- The destructor: `unique_lock` on `member_mutex` (line 126), then on
`send_mutex` (line 127), then `close` of the descriptor (line 133). -/
def destructor_trace : List dtor_event :=
  [dtor_event.lock mutex_id.member_mutex, dtor_event.lock mutex_id.send_mutex,
   dtor_event.close_socket]

/-- Locks acquired by either `receive` form (part_000 lines 150 and 196). -/
def receive_locks : List mutex_id := [mutex_id.receive_mutex]

/-- Locks acquired by `send` (part_000 lines 269-270 and 338-339). -/
def send_locks : List mutex_id := [mutex_id.member_mutex, mutex_id.send_mutex]

/-- Locks acquired by `send_to` (part_000 lines 234 and 304). -/
def send_to_locks : List mutex_id := [mutex_id.send_mutex]

/-- Locks acquired by `configure_remote_host` (part_000 line 382). -/
def configure_locks : List mutex_id := [mutex_id.member_mutex]

/-! ## Specification-side definitions and concrete states -/

/-- The message format asserted by the specification's ErrorMapper section,
taken literally: a stage description, then the separator ": ", then the
platform error code.  Defined from the spec's words, to be compared with
the messages the code builds. -/
def claimed_message_format (msg : String) : Prop :=
  ∃ stage code, msg = stage ++ ": " ++ Nat.repr code

/-- Whether a character list contains a colon immediately followed by a
space — the separator of `claimed_message_format`. -/
def contains_colon_space : List Char → Bool
  | [] => false
  | [_] => false
  | a :: b :: rest => (a = ':' && b = ' ') || contains_colon_space (b :: rest)

/-- Messages that hold a platform error code as data: a stage text
followed by the code rendered in decimal. -/
def platform_code_message (msg : String) : Prop :=
  ∃ stage code, msg = stage ++ Nat.repr code

/-- The fixed, code-free messages the source attaches to address-parse
failures and to sending without a configured remote. -/
def fixed_messages : List String :=
  ["Could not initialize socket:\nProvided address was invalid.",
   "Could not configure socket:\nProvided address was invalid.",
   "Error occurred while sending from socket:\nProvided address was invalid.",
   "Error occurred while sending from socket:\nRemote host address and port has not been set."]

/-- A concrete endpoint state for witnesses: descriptor 3, local port 6666,
wildcard local address, no remote configured — the state a successful
`construct 6666 ""` produces when `socket` returns 3 and every other
platform call succeeds. -/
def sample_state : SocketState :=
  ⟨3, 6666, ⟨AF_INET, htons 6666, INADDR_ANY⟩, ⟨0, 0, 0⟩, false⟩

/-- `sample_state` after a successful `configure_remote_host(1, "10.0.0.1")`:
remote port `htons 1`, remote address 10.0.0.1, validity flag set. -/
def configured_state : SocketState :=
  (configure_remote_host sample_state 1 "10.0.0.1").2

/-! ## First sanity checks on the embedding -/

example : inet_pton "127.0.0.1" = some 2130706433 := by decide
example : inet_pton "" = none := by decide
example : inet_pton "not-an-address" = none := by decide
example : inet_pton "256.0.0.1" = none := by decide
example : inet_pton "1.2.3" = none := by decide
example : inet_pton "1.2.3.4.5" = none := by decide
example : inet_pton "10.0.0.1" = some 167772161 := by decide
example : htons 16666 = 6721 := by decide

/-- C6: for every `timeout_ms` in the uint32 range, the seconds+microseconds
pair computed by `set_socket_receive_timeout` on the POSIX path represents
exactly the requested duration: `tv_sec = timeout_ms / 1000`,
`0 ≤ tv_usec < 1000000`, and `tv_sec * 1000000 + tv_usec = timeout_ms * 1000`. -/
theorem timeout_conversion_exact (timeout_ms : Nat) (h : timeout_ms < 2 ^ 32) :
    (receive_timeout_timeval timeout_ms).1 = timeout_ms / 1000 ∧
    (receive_timeout_timeval timeout_ms).2 < 1000000 ∧
    (receive_timeout_timeval timeout_ms).1 * 1000000 + (receive_timeout_timeval timeout_ms).2
      = timeout_ms * 1000 := by
  refine ⟨?_, ?_, ?_⟩ <;> simp [receive_timeout_timeval] <;> omega

/-- Witness for C6 at the concrete input 1500 ms. -/
theorem timeout_conversion_exact_witness :
    (receive_timeout_timeval 1500).1 = 1500 / 1000 ∧
    (receive_timeout_timeval 1500).2 < 1000000 ∧
    (receive_timeout_timeval 1500).1 * 1000000 + (receive_timeout_timeval 1500).2
      = 1500 * 1000 :=
  timeout_conversion_exact 1500 (by decide)

/-! ## Helper lemmas -/

/-- Neither branch of either receive form assigns a member: the returned
state is the input state. -/
theorem receive_vec_state (st : SocketState) (buffer_size : Nat) (flags : Int)
    (recv : Nat → Nat → Int → RecvResult) :
    (receive_vec st buffer_size flags recv).2 = st := by
  unfold receive_vec
  cases recv st.socket_file_descriptor buffer_size flags
  · rfl
  · dsimp only
    split <;> rfl

/-- Neither branch of the buffer-writing receive assigns a member. -/
theorem receive_buf_state (st : SocketState) (buffer_size : Nat) (flags : Int)
    (recv : Nat → Nat → Int → RecvResult) :
    (receive_buf st buffer_size flags recv).2 = st := by
  unfold receive_buf
  cases recv st.socket_file_descriptor buffer_size flags
  · rfl
  · dsimp only
    split <;> rfl

/-- `send` never assigns a member. -/
theorem send_state (st : SocketState) (buffer : List Nat) (flags : Int)
    (sendto : sendto_call → Int) (last_error : Nat) :
    (send st buffer flags sendto last_error).2 = st := by
  unfold send
  cases h : send_request st buffer flags <;> rfl

/-- `send_to` never assigns a member. -/
theorem send_to_state (st : SocketState) (buffer : List Nat) (port : Nat)
    (address : String) (flags : Int) (sendto : sendto_call → Int) (last_error : Nat) :
    (send_to st buffer port address flags sendto last_error).2 = st := by
  unfold send_to
  cases h : send_to_request st buffer port address flags <;> rfl

/-- `set_socket_receive_timeout` never assigns a member. -/
theorem set_socket_receive_timeout_state (st : SocketState) (timeout_ms : Nat)
    (setsockopt_rcvtimeo : Nat × Nat → Int) (last_error : Nat) :
    (set_socket_receive_timeout st timeout_ms setsockopt_rcvtimeo last_error).2 = st := by
  unfold set_socket_receive_timeout
  dsimp only
  split <;> rfl

/-- The result component of `set_socket_receive_timeout`, as a single
conditional. -/
theorem set_socket_receive_timeout_fst (st : SocketState) (timeout_ms : Nat)
    (setsockopt_rcvtimeo : Nat × Nat → Int) (last_error : Nat) :
    (set_socket_receive_timeout st timeout_ms setsockopt_rcvtimeo last_error).1
      = (if setsockopt_rcvtimeo (receive_timeout_timeval timeout_ms) ≠ 0 then
          Except.error (configuration_error
            ("An error occurred while setting the receive timeout: " ++ Nat.repr last_error))
        else Except.ok ()) := by
  unfold set_socket_receive_timeout
  dsimp only
  split <;> simp_all

/-- Exhaustive description of the constructor's possible results. -/
theorem construct_cases (port : Nat) (address : String) (env : ConstructEnv) :
    (parse_local_address address = none ∧
      construct port address env
        = Except.error (initialization_error "Provided address was invalid.")) ∨
    (∃ sin_addr, parse_local_address address = some sin_addr ∧
      (construct port address env
          = Except.error (configuration_error
              ("An error occurred while setting the receive timeout: "
                ++ Nat.repr env.last_error)) ∨
        construct port address env
          = Except.error (initialization_error
              ("Could not bind socket to local address, failed with error: "
                ++ Nat.repr env.last_error)) ∨
        construct port address env
          = Except.ok ⟨(env.socket_result % (2 ^ 64 : Int)).toNat, port % 65536,
              ⟨AF_INET, htons port, sin_addr⟩, ⟨0, 0, 0⟩, false⟩)) := by
  rcases hp : parse_local_address address with _ | sin_addr
  · refine Or.inl ⟨rfl, ?_⟩
    unfold construct
    rw [hp]
  · refine Or.inr ⟨sin_addr, rfl, ?_⟩
    unfold construct
    rw [hp]
    dsimp only
    rw [if_neg (Nat.not_lt_zero _), set_socket_receive_timeout_fst]
    by_cases hc : env.setsockopt_rcvtimeo (receive_timeout_timeval 0) ≠ 0
    · rw [if_pos hc]
      exact Or.inl rfl
    · rw [if_neg hc]
      dsimp only
      by_cases hb : env.bind_result ≠ 0
      · rw [if_pos hb]
        exact Or.inr (Or.inl rfl)
      · rw [if_neg hb]
        exact Or.inr (Or.inr rfl)

/-- Appending cannot shrink a string below the length of its left part. -/
theorem append_ne_of_shorter (a t b : String) (h : b.length < a.length) :
    a ++ t ≠ b := by
  intro he
  have hl := congrArg String.length he
  rw [String.length_append] at hl
  omega

/-- Two `initialization_error`s with a long-plus-suffix message and a
strictly shorter message differ. -/
theorem initialization_error_ne (a t b : String) (h : b.length < a.length) :
    initialization_error (a ++ t) ≠ initialization_error b := by
  intro he
  have hm : "Could not initialize socket:\n" ++ (a ++ t)
      = "Could not initialize socket:\n" ++ b := congrArg socket_error.message he
  have hl := congrArg String.length hm
  rw [String.length_append, String.length_append, String.length_append] at hl
  omega

/-- Any character list of the shape `u ++ ':' :: ' ' :: v` contains the
colon-space separator. -/
theorem contains_colon_space_append (u v : List Char) :
    contains_colon_space (u ++ ':' :: ' ' :: v) = true := by
  induction u with
  | nil => simp [contains_colon_space]
  | cons x xs ih =>
    cases xs with
    | nil => simp [contains_colon_space]
    | cons y ys =>
      simp only [List.cons_append, contains_colon_space, Bool.or_eq_true]
      right
      exact ih

/-! ## Claim theorems -/

/-- C2: when a `recv` call fails because the receive timeout elapsed with
no datagram available — which POSIX reports through the codes
`EAGAIN`/`EWOULDBLOCK` the source tests on line 165 — the vector-returning
receive returns an empty vector and the buffer-writing receive returns 0,
and neither signals an error; `receive_error`, carrying the platform error
code, is signalled if and only if `recv` fails with a non-timeout code. -/
theorem receive_timeout_not_error (st : SocketState) (buffer_size : Nat) (flags : Int)
    (recv : Nat → Nat → Int → RecvResult) :
    (∀ c, recv st.socket_file_descriptor buffer_size flags = RecvResult.fail c →
      ((c = EAGAIN ∨ c = EWOULDBLOCK) →
        (receive_vec st buffer_size flags recv).1 = Except.ok [] ∧
        (receive_buf st buffer_size flags recv).1 = Except.ok 0) ∧
      (¬(c = EAGAIN ∨ c = EWOULDBLOCK) →
        (receive_vec st buffer_size flags recv).1
          = Except.error (receive_error (Nat.repr c)) ∧
        (receive_buf st buffer_size flags recv).1
          = Except.error (receive_error (Nat.repr c)))) ∧
    (∀ bytes, recv st.socket_file_descriptor buffer_size flags = RecvResult.ok bytes →
      (receive_vec st buffer_size flags recv).1 = Except.ok bytes ∧
      (receive_buf st buffer_size flags recv).1 = Except.ok bytes.length) := by
  constructor
  · intro c hc
    constructor <;> intro h <;>
      constructor <;> simp [receive_vec, receive_buf, hc, h]
  · intro bytes hb
    constructor <;> simp [receive_vec, receive_buf, hb]

/-- Witness for C2: on the concrete `sample_state`, a timed-out `recv`
(code `EAGAIN` = 11) yields an empty vector and count 0, and a `recv`
failing with code 111 yields the `receive_error` carrying 111. -/
theorem receive_timeout_not_error_witness :
    ((receive_vec sample_state 1500 0 (fun _ _ _ => RecvResult.fail 11)).1
        = Except.ok [] ∧
      (receive_buf sample_state 1500 0 (fun _ _ _ => RecvResult.fail 11)).1
        = Except.ok 0) ∧
    ((receive_vec sample_state 1500 0 (fun _ _ _ => RecvResult.fail 111)).1
        = Except.error (receive_error (Nat.repr 111)) ∧
      (receive_buf sample_state 1500 0 (fun _ _ _ => RecvResult.fail 111)).1
        = Except.error (receive_error (Nat.repr 111))) :=
  ⟨((receive_timeout_not_error sample_state 1500 0
      (fun _ _ _ => RecvResult.fail 11)).1 11 rfl).1 (Or.inl rfl),
   ((receive_timeout_not_error sample_state 1500 0
      (fun _ _ _ => RecvResult.fail 111)).1 111 rfl).2 (by decide)⟩

/-- C4: on an endpoint whose remote-configuration flag is false, `send`
always fails with `send_error` ("Remote host address and port has not been
set.") and issues no transport call — the failure is the same for every
transport oracle, and `send_request` yields no call; when the flag is set,
`send` transmits synchronously and returns the transport's byte count (or
signals `send_error` with the platform code when the transport fails). -/
theorem send_unconfigured_fails (st : SocketState) (buffer : List Nat) (flags : Int)
    (sendto : sendto_call → Int) (last_error : Nat) :
    (st.remote_address_set = false →
      send_request st buffer flags
        = Except.error (send_error "Remote host address and port has not been set.") ∧
      (send st buffer flags sendto last_error).1
        = Except.error (send_error "Remote host address and port has not been set.")) ∧
    (st.remote_address_set = true →
      ∀ r, sendto ⟨st.socket_file_descriptor, buffer, flags, st.remote_address⟩ = r →
        (r = -1 → (send st buffer flags sendto last_error).1
            = Except.error (send_error (Nat.repr last_error))) ∧
        (r ≠ -1 → (send st buffer flags sendto last_error).1 = Except.ok r)) := by
  constructor
  · intro h
    constructor <;> simp [send, send_request, h]
  · intro h r hr
    constructor <;> intro hv <;>
      simp [send, send_request, send_result, h, hr, hv]

/-- Witness for C4: on `sample_state` (flag false) `send` fails with the
remote-not-configured error for a transport that would accept 4 bytes, and
on `configured_state` (flag true) the same transport makes `send` return
4. -/
theorem send_unconfigured_fails_witness :
    (send sample_state [104, 105, 33, 0] 0 (fun _ => 4) 0).1
      = Except.error (send_error "Remote host address and port has not been set.") ∧
    (send configured_state [104, 105, 33, 0] 0 (fun _ => 4) 0).1 = Except.ok 4 :=
  ⟨((send_unconfigured_fails sample_state [104, 105, 33, 0] 0 (fun _ => 4) 0).1
      rfl).2,
   ((send_unconfigured_fails configured_state [104, 105, 33, 0] 0 (fun _ => 4) 0).2
      (by decide) 4 rfl).2 (by decide)⟩

/-- C3: for a parseable address, `configure_remote_host(port, address)`
followed by `send(buffer)` issues exactly the `sendto` call that
`send_to(buffer, port, address)` issues on the original endpoint — the
same descriptor, the same bytes, the same flags, and the identical
destination (`AF_INET`, `htons port`, the parsed address) — and for every
transport oracle the two calls return the same result, in particular the
same byte count on success. -/
theorem send_configured_equals_send_to (st : SocketState) (buffer : List Nat)
    (port : Nat) (address : String) (flags : Int) (addr : Nat)
    (hparse : inet_pton address = some addr) :
    (configure_remote_host st port address).1 = Except.ok () ∧
    send_request ((configure_remote_host st port address).2) buffer flags
      = send_to_request st buffer port address flags ∧
    ∀ (sendto : sendto_call → Int) (last_error : Nat),
      (send ((configure_remote_host st port address).2) buffer flags sendto last_error).1
        = (send_to st buffer port address flags sendto last_error).1 := by
  refine ⟨?_, ?_, ?_⟩
  · simp [configure_remote_host, hparse]
  · simp [configure_remote_host, send_request, send_to_request, hparse]
  · intro sendto last_error
    simp [send, send_to, configure_remote_host, send_request, send_to_request, hparse]

/-- Witness for C3 at `sample_state`, destination port 16666, address
"127.0.0.1", payload [104, 105]. -/
theorem send_configured_equals_send_to_witness :
    (configure_remote_host sample_state 16666 "127.0.0.1").1 = Except.ok () ∧
    send_request ((configure_remote_host sample_state 16666 "127.0.0.1").2) [104, 105] 0
      = send_to_request sample_state [104, 105] 16666 "127.0.0.1" 0 ∧
    ∀ (sendto : sendto_call → Int) (last_error : Nat),
      (send ((configure_remote_host sample_state 16666 "127.0.0.1").2)
          [104, 105] 0 sendto last_error).1
        = (send_to sample_state [104, 105] 16666 "127.0.0.1" 0 sendto last_error).1 :=
  send_configured_equals_send_to sample_state [104, 105] 16666 "127.0.0.1" 0
    2130706433 (by decide)

/-- C1 fails on the code: starting from `configured_state` (remote port
`htons 1`, remote address 10.0.0.1, validity flag set), the call
`configure_remote_host(2, "not-an-address")` signals `configuration_error`
as the claim states, but the stored remote configuration is not what it
was before the call — the stored port has already been overwritten with
`htons 2` (the assignment on part_000 line 388 precedes the parse check on
line 391) while the flag is still set and the address is still 10.0.0.1,
so a subsequent observer of the configuration sees the port of the failed
call paired with the address of the earlier one. -/
theorem configure_failure_not_atomic_cex :
    (configure_remote_host configured_state 2 "not-an-address").1
      = Except.error (configuration_error "Provided address was invalid.") ∧
    ((configure_remote_host configured_state 2 "not-an-address").2).remote_address.sin_port
      = htons 2 ∧
    htons 2 ≠ configured_state.remote_address.sin_port ∧
    ((configure_remote_host configured_state 2 "not-an-address").2).remote_address.sin_addr
      = configured_state.remote_address.sin_addr ∧
    ((configure_remote_host configured_state 2 "not-an-address").2).remote_address_set
      = true :=
  ⟨rfl, by decide, by decide, by decide, by decide⟩

/-- C1 amended: on a parse failure `configure_remote_host` signals
`configuration_error` and leaves the validity flag and the stored remote
address exactly as they were, but the stored remote port (and family)
have by then already been overwritten with the new values; on a parse
success the full (address, port) pair is stored and the validity flag set
before the call returns, all under `member_mutex`, the one lock guarding
configuration reads, so no observer sees a torn pair produced by a
successful call. -/
theorem configure_remote_host_effect (st : SocketState) (port : Nat) (address : String) :
    (inet_pton address = none →
      (configure_remote_host st port address).1
        = Except.error (configuration_error "Provided address was invalid.") ∧
      ((configure_remote_host st port address).2).remote_address_set
        = st.remote_address_set ∧
      ((configure_remote_host st port address).2).remote_address.sin_addr
        = st.remote_address.sin_addr ∧
      ((configure_remote_host st port address).2).remote_address.sin_port
        = htons port) ∧
    (∀ addr, inet_pton address = some addr →
      (configure_remote_host st port address).1 = Except.ok () ∧
      ((configure_remote_host st port address).2).remote_address
        = ⟨AF_INET, htons port, addr⟩ ∧
      ((configure_remote_host st port address).2).remote_address_set = true) ∧
    mutex_id.member_mutex ∈ configure_locks := by
  refine ⟨fun h => ?_, fun addr h => ?_, by decide⟩ <;>
    simp [configure_remote_host, h]

/-- Witness for the amended C1: the failing branch at
(`configured_state`, 2, "not-an-address") and the succeeding branch at
(`sample_state`, 1, "10.0.0.1"). -/
theorem configure_remote_host_effect_witness :
    ((configure_remote_host configured_state 2 "not-an-address").1
        = Except.error (configuration_error "Provided address was invalid.") ∧
      ((configure_remote_host configured_state 2 "not-an-address").2).remote_address_set
        = configured_state.remote_address_set ∧
      ((configure_remote_host configured_state 2 "not-an-address").2).remote_address.sin_addr
        = configured_state.remote_address.sin_addr ∧
      ((configure_remote_host configured_state 2 "not-an-address").2).remote_address.sin_port
        = htons 2) ∧
    ((configure_remote_host sample_state 1 "10.0.0.1").1 = Except.ok () ∧
      ((configure_remote_host sample_state 1 "10.0.0.1").2).remote_address
        = ⟨AF_INET, htons 1, 167772161⟩ ∧
      ((configure_remote_host sample_state 1 "10.0.0.1").2).remote_address_set = true) :=
  ⟨(configure_remote_host_effect configured_state 2 "not-an-address").1 (by decide),
   ((configure_remote_host_effect sample_state 1 "10.0.0.1").2).1 167772161 (by decide)⟩

/-- C5: the remote-configuration validity flag is false on every state a
successful construction returns, and no public operation ever lowers it:
send, send_to, both receive forms, set_socket_receive_timeout and
get_socket_file_descriptor leave it untouched, and configure_remote_host
either leaves it unchanged (parse failure) or sets it, so once true it
stays true for the endpoint's lifetime. -/
theorem remote_flag_monotone :
    (∀ port address env st, construct port address env = Except.ok st →
      st.remote_address_set = false) ∧
    (∀ st port address, st.remote_address_set = true →
      ((configure_remote_host st port address).2).remote_address_set = true) ∧
    (∀ st buffer_size flags recv,
      ((receive_vec st buffer_size flags recv).2).remote_address_set
          = st.remote_address_set ∧
      ((receive_buf st buffer_size flags recv).2).remote_address_set
          = st.remote_address_set) ∧
    (∀ st buffer flags sendto last_error,
      ((send st buffer flags sendto last_error).2).remote_address_set
        = st.remote_address_set) ∧
    (∀ st buffer port address flags sendto last_error,
      ((send_to st buffer port address flags sendto last_error).2).remote_address_set
        = st.remote_address_set) ∧
    (∀ st timeout_ms setsockopt_rcvtimeo last_error,
      ((set_socket_receive_timeout st timeout_ms setsockopt_rcvtimeo
          last_error).2).remote_address_set = st.remote_address_set) ∧
    (∀ st, ((get_socket_file_descriptor st).2).remote_address_set
        = st.remote_address_set) := by
  refine ⟨?_, ?_, ?_, ?_, ?_, ?_, ?_⟩
  · intro port address env st h
    rcases construct_cases port address env with ⟨_, hcon⟩ |
      ⟨sin_addr, _, hcon | hcon | hcon⟩ <;> rw [hcon] at h <;> simp at h
    rw [← h]
  · intro st port address h
    unfold configure_remote_host
    rcases hp : inet_pton address with _ | addr <;> simp [h]
  · intro st buffer_size flags recv
    rw [receive_vec_state, receive_buf_state]
    exact ⟨rfl, rfl⟩
  · intro st buffer flags sendto last_error
    rw [send_state]
  · intro st buffer port address flags sendto last_error
    rw [send_to_state]
  · intro st timeout_ms setsockopt_rcvtimeo last_error
    rw [set_socket_receive_timeout_state]
  · intro st
    rfl

/-- Witness for C5: a concrete successful construction (descriptor 3,
every platform call succeeding) returns the flag false, and on
`configured_state` (flag true) a further successful configuration keeps it
true. -/
theorem remote_flag_monotone_witness :
    (construct 6666 "" ⟨3, 0, fun _ => 0, 0⟩ = Except.ok sample_state →
      sample_state.remote_address_set = false) ∧
    ((configure_remote_host configured_state 7 "127.0.0.1").2).remote_address_set
      = true :=
  ⟨remote_flag_monotone.1 6666 "" ⟨3, 0, fun _ => 0, 0⟩ sample_state,
   (remote_flag_monotone.2.1 configured_state 7 "127.0.0.1") (by decide)⟩

/-- C7: construction with a non-empty address string that fails to parse
signals `initialization_error` ("Provided address was invalid.") whatever
the environment does — the result does not depend on the environment
oracle at all, because the parse is checked before the socket-creating
call — while the empty address string selects `INADDR_ANY` and can never
produce that parse failure. -/
theorem construct_bad_address_fails (port : Nat) (address : String)
    (env : ConstructEnv) (hne : address ≠ "") (hbad : inet_pton address = none) :
    construct port address env
      = Except.error (initialization_error "Provided address was invalid.") ∧
    (∀ env2 : ConstructEnv,
      construct port "" env2
        ≠ Except.error (initialization_error "Provided address was invalid.") ∧
      (∀ st, construct port "" env2 = Except.ok st →
        st.local_address.sin_addr = INADDR_ANY)) := by
  constructor
  · have hp : parse_local_address address = none := by
      unfold parse_local_address
      rw [if_neg hne, hbad]
    unfold construct
    rw [hp]
  · intro env2
    have hp0 : parse_local_address "" = some INADDR_ANY := rfl
    constructor
    · intro h
      rcases construct_cases port "" env2 with ⟨hn, _⟩ |
        ⟨sin_addr, hp, hcon | hcon | hcon⟩
      · rw [hp0] at hn
        exact Option.noConfusion hn
      · rw [hcon] at h
        simp only [Except.error.injEq] at h
        have := congrArg socket_error.code h
        simp [configuration_error, initialization_error] at this
      · rw [hcon] at h
        simp only [Except.error.injEq] at h
        exact initialization_error_ne
          "Could not bind socket to local address, failed with error: "
          (Nat.repr env2.last_error) "Provided address was invalid."
          (by decide) h
      · rw [hcon] at h
        exact Except.noConfusion h
    · intro st h
      rcases construct_cases port "" env2 with ⟨hn, _⟩ |
        ⟨sin_addr, hp, hcon | hcon | hcon⟩
      · rw [hp0] at hn
        exact Option.noConfusion hn
      · rw [hcon] at h
        exact Except.noConfusion h
      · rw [hcon] at h
        exact Except.noConfusion h
      · rw [hcon] at h
        simp only [Except.ok.injEq] at h
        rw [hp0] at hp
        have ha : sin_addr = INADDR_ANY := (Option.some.inj hp).symm
        rw [← h]
        exact ha

/-- Witness for C7 at port 5, address "not-an-address", a benign
environment. -/
theorem construct_bad_address_fails_witness :
    construct 5 "not-an-address" ⟨3, 0, fun _ => 0, 0⟩
      = Except.error (initialization_error "Provided address was invalid.") ∧
    (∀ st, construct 5 "" ⟨3, 0, fun _ => 0, 0⟩ = Except.ok st →
      st.local_address.sin_addr = INADDR_ANY) :=
  ⟨(construct_bad_address_fails 5 "not-an-address" ⟨3, 0, fun _ => 0, 0⟩
      (by decide) (by decide)).1,
   ((construct_bad_address_fails 5 "not-an-address" ⟨3, 0, fun _ => 0, 0⟩
      (by decide) (by decide)).2 ⟨3, 0, fun _ => 0, 0⟩).2⟩

/-- C8 fails on the code: a receive failure with platform code 170
produces the error the source builds — kind `RECEIVE_ERROR` and message
"Error occurred while receiving from socket:" followed by a newline and
"170" — and that message is not of the claimed form
"(stage): (platform error code)": it contains no colon-space separator
anywhere, the only colon being followed by a newline. -/
theorem error_message_format_cex :
    (receive_vec sample_state 1500 0 (fun _ _ _ => RecvResult.fail 170)).1
      = Except.error (receive_error (Nat.repr 170)) ∧
    ¬ claimed_message_format (receive_error (Nat.repr 170)).message := by
  constructor
  · rfl
  · rintro ⟨stage, code, h⟩
    have hd := congrArg String.data h
    rw [String.data_append, String.data_append] at hd
    have htrue :
        contains_colon_space ((receive_error (Nat.repr 170)).message.data) = true := by
      rw [hd, show (": " : String).data = [':', ' '] from rfl, List.append_assoc]
      exact contains_colon_space_append stage.data ((Nat.repr code).data)
    have hfalse :
        contains_colon_space ((receive_error (Nat.repr 170)).message.data) = false := by
      decide
    rw [htrue] at hfalse
    exact Bool.noConfusion hfalse

/-- C8 amended: every error kind belongs to the fixed four-kind taxonomy
and platform codes enter only as message text, but the format differs from
the claimed "(stage): (code)": errors that report a platform-call failure
carry a stage text directly followed by the code in decimal (the
separator before the detail being a colon and a newline, or a colon and a
space inside some stage texts), while address-parse and
unconfigured-remote errors carry one of four fixed messages with no
platform code at all. -/
theorem error_taxonomy :
    (∀ k : codes, k = codes.INITIALIZATION_ERROR ∨ k = codes.CONFIGURATION_ERROR ∨
        k = codes.RECEIVE_ERROR ∨ k = codes.SEND_ERROR) ∧
    (∀ st buffer_size flags recv e,
      (receive_vec st buffer_size flags recv).1 = Except.error e →
        e.code = codes.RECEIVE_ERROR ∧ platform_code_message e.message) ∧
    (∀ st buffer_size flags recv e,
      (receive_buf st buffer_size flags recv).1 = Except.error e →
        e.code = codes.RECEIVE_ERROR ∧ platform_code_message e.message) ∧
    (∀ st buffer port address flags sendto last_error e,
      (send_to st buffer port address flags sendto last_error).1 = Except.error e →
        e.code = codes.SEND_ERROR ∧
        (platform_code_message e.message ∨ e.message ∈ fixed_messages)) ∧
    (∀ st buffer flags sendto last_error e,
      (send st buffer flags sendto last_error).1 = Except.error e →
        e.code = codes.SEND_ERROR ∧
        (platform_code_message e.message ∨ e.message ∈ fixed_messages)) ∧
    (∀ st timeout_ms setsockopt_rcvtimeo last_error e,
      (set_socket_receive_timeout st timeout_ms setsockopt_rcvtimeo last_error).1
          = Except.error e →
        e.code = codes.CONFIGURATION_ERROR ∧ platform_code_message e.message) ∧
    (∀ st port address e,
      (configure_remote_host st port address).1 = Except.error e →
        e.code = codes.CONFIGURATION_ERROR ∧ e.message ∈ fixed_messages) ∧
    (∀ port address env e, construct port address env = Except.error e →
      (e.code = codes.INITIALIZATION_ERROR ∨ e.code = codes.CONFIGURATION_ERROR) ∧
      (platform_code_message e.message ∨ e.message ∈ fixed_messages)) := by
  refine ⟨?_, ?_, ?_, ?_, ?_, ?_, ?_, ?_⟩
  · intro k
    cases k <;> simp
  · intro st buffer_size flags recv e he
    unfold receive_vec at he
    rcases hr : recv st.socket_file_descriptor buffer_size flags with bytes | c <;>
      rw [hr] at he <;> dsimp only at he
    · exact Except.noConfusion he
    · split at he
      · exact Except.noConfusion he
      · simp only [Except.error.injEq] at he
        rw [← he]
        exact ⟨rfl, "Error occurred while receiving from socket:\n", c, rfl⟩
  · intro st buffer_size flags recv e he
    unfold receive_buf at he
    rcases hr : recv st.socket_file_descriptor buffer_size flags with bytes | c <;>
      rw [hr] at he <;> dsimp only at he
    · exact Except.noConfusion he
    · split at he
      · exact Except.noConfusion he
      · simp only [Except.error.injEq] at he
        rw [← he]
        exact ⟨rfl, "Error occurred while receiving from socket:\n", c, rfl⟩
  · intro st buffer port address flags sendto last_error e he
    unfold send_to at he
    rcases hq : send_to_request st buffer port address flags with e2 | call <;>
      rw [hq] at he <;> dsimp only at he
    · simp only [Except.error.injEq] at he
      unfold send_to_request at hq
      rcases hp : inet_pton address with _ | addr <;> rw [hp] at hq <;>
        simp only [Except.error.injEq] at hq
      · rw [← he, ← hq]
        exact ⟨rfl, Or.inr (by decide)⟩
      · exact Except.noConfusion hq
    · unfold send_result at he
      split at he
      · simp only [Except.error.injEq] at he
        rw [← he]
        exact ⟨rfl, Or.inl ⟨"Error occurred while sending from socket:\n",
          last_error, rfl⟩⟩
      · exact Except.noConfusion he
  · intro st buffer flags sendto last_error e he
    unfold send at he
    rcases hq : send_request st buffer flags with e2 | call <;>
      rw [hq] at he <;> dsimp only at he
    · simp only [Except.error.injEq] at he
      unfold send_request at hq
      split at hq
      · exact Except.noConfusion hq
      · simp only [Except.error.injEq] at hq
        rw [← he, ← hq]
        exact ⟨rfl, Or.inr (by decide)⟩
    · unfold send_result at he
      split at he
      · simp only [Except.error.injEq] at he
        rw [← he]
        exact ⟨rfl, Or.inl ⟨"Error occurred while sending from socket:\n",
          last_error, rfl⟩⟩
      · exact Except.noConfusion he
  · intro st timeout_ms setsockopt_rcvtimeo last_error e he
    rw [set_socket_receive_timeout_fst] at he
    split at he
    · simp only [Except.error.injEq] at he
      rw [← he]
      refine ⟨rfl, "Could not configure socket:\n" ++ "An error occurred while setting the receive timeout: ",
        last_error, ?_⟩
      rw [String.append_assoc]
      rfl
    · exact Except.noConfusion he
  · intro st port address e he
    unfold configure_remote_host at he
    rcases hp : inet_pton address with _ | addr <;> rw [hp] at he <;>
      dsimp only at he
    · simp only [Except.error.injEq] at he
      rw [← he]
      exact ⟨rfl, by decide⟩
    · exact Except.noConfusion he
  · intro port address env e he
    rcases construct_cases port address env with ⟨_, hcon⟩ |
      ⟨sin_addr, _, hcon | hcon | hcon⟩ <;> rw [hcon] at he
    · simp only [Except.error.injEq] at he
      rw [← he]
      exact ⟨Or.inl rfl, Or.inr (by decide)⟩
    · simp only [Except.error.injEq] at he
      rw [← he]
      refine ⟨Or.inr rfl, Or.inl ⟨"Could not configure socket:\n" ++ "An error occurred while setting the receive timeout: ",
        env.last_error, ?_⟩⟩
      rw [String.append_assoc]
      rfl
    · simp only [Except.error.injEq] at he
      rw [← he]
      refine ⟨Or.inl rfl, Or.inl ⟨"Could not initialize socket:\n" ++ "Could not bind socket to local address, failed with error: ",
        env.last_error, ?_⟩⟩
      rw [String.append_assoc]
      rfl
    · exact Except.noConfusion he

/-- Witness for the amended C8: the receive error carrying code 170 and
the unconfigured-remote send error, produced by the operations on
concrete inputs. -/
theorem error_taxonomy_witness :
    ((receive_error (Nat.repr 170)).code = codes.RECEIVE_ERROR ∧
      platform_code_message (receive_error (Nat.repr 170)).message) ∧
    ((send_error "Remote host address and port has not been set.").code
        = codes.SEND_ERROR ∧
      (platform_code_message
          (send_error "Remote host address and port has not been set.").message ∨
        (send_error "Remote host address and port has not been set.").message
          ∈ fixed_messages)) :=
  ⟨error_taxonomy.2.1 sample_state 1500 0 (fun _ _ _ => RecvResult.fail 170)
      (receive_error (Nat.repr 170)) rfl,
   error_taxonomy.2.2.2.2.1 sample_state [] 0 (fun _ => 0) 0
      (send_error "Remote host address and port has not been set.") rfl⟩

/-- C9: the destructor acquires member_mutex and send_mutex, and closing
the socket handle is its last event, so both locks are taken before the
close; it never acquires receive_mutex, and it shares no lock with the
receive path, so a receive call in progress when destruction begins is
not serialized against the close of the handle. -/
theorem destructor_skips_receive_lock :
    dtor_event.lock mutex_id.member_mutex ∈ destructor_trace ∧
    dtor_event.lock mutex_id.send_mutex ∈ destructor_trace ∧
    destructor_trace.getLast? = some dtor_event.close_socket ∧
    dtor_event.lock mutex_id.receive_mutex ∉ destructor_trace ∧
    (∀ m ∈ receive_locks, dtor_event.lock m ∉ destructor_trace) := by
  refine ⟨by decide, by decide, rfl, by decide, by decide⟩

/-- Witness for C9 at the concrete lock `receive_mutex`, the sole element
of the receive path's lock set. -/
theorem destructor_skips_receive_lock_witness :
    dtor_event.lock mutex_id.receive_mutex ∉ destructor_trace :=
  destructor_skips_receive_lock.2.2.2.2 mutex_id.receive_mutex (by decide)

/-- C10: whatever its outcome, each of send, send_to, both receive forms,
set_socket_receive_timeout and get_socket_file_descriptor returns the
endpoint state with every field unchanged, and configure_remote_host
leaves the descriptor, the local port and the local address unchanged —
after construction it is the only public operation that mutates any
field, and it touches only the remote address and the remote-address-set
flag. -/
theorem operations_frame :
    (∀ st buffer_size flags recv, (receive_vec st buffer_size flags recv).2 = st) ∧
    (∀ st buffer_size flags recv, (receive_buf st buffer_size flags recv).2 = st) ∧
    (∀ st buffer flags sendto last_error,
      (send st buffer flags sendto last_error).2 = st) ∧
    (∀ st buffer port address flags sendto last_error,
      (send_to st buffer port address flags sendto last_error).2 = st) ∧
    (∀ st timeout_ms setsockopt_rcvtimeo last_error,
      (set_socket_receive_timeout st timeout_ms setsockopt_rcvtimeo last_error).2 = st) ∧
    (∀ st, (get_socket_file_descriptor st).2 = st) ∧
    (∀ st port address,
      ((configure_remote_host st port address).2).socket_file_descriptor
          = st.socket_file_descriptor ∧
      ((configure_remote_host st port address).2).local_port = st.local_port ∧
      ((configure_remote_host st port address).2).local_address = st.local_address) := by
  refine ⟨receive_vec_state, receive_buf_state, send_state, send_to_state,
    set_socket_receive_timeout_state, fun st => rfl, ?_⟩
  intro st port address
  rcases hp : inet_pton address with _ | addr <;> simp [configure_remote_host, hp]

end OOSocket
